import Mathlib

/-!
Verification of the BattMon battery monitor (src/pc/battmon.py).

The development embeds the battery state and notification engine of the
tray monitor: the Linux reading normalizer (`get_battery_info_linux`),
the derived charging flag, the milestone notification checker
(`check_milestone_notifications`), the sleep/wake detector and the
percentage-drop beep policy inside the tick handler (`update_battery`).
Strings are modelled through their character lists, machine integers as
`Int`/`Nat`, and every stateful method as an explicit function from a
`MonitorState` to a new state plus the list of emitted events.
-/

/-- Canonical battery reading, as returned by the platform query helpers:
a state string, an integer percentage and an optional time string. -/
structure BatteryReading where
  state : String
  percentage : Int
  time : Option String
deriving DecidableEq, Repr

/-- Observable effects of one tick: a desktop notification (title and
notification type string, as passed to `show_desktop_notification`) or a
call to `alert_beep` with the given count. -/
inductive Event where
  | notify (title : String) (ntype : String)
  | beep (times : Nat)
deriving DecidableEq, Repr

/-! ## String helpers

The Python code uses `in`, `split`, `strip`, `lower` and two regular
expressions over short ASCII command output.  These are embedded as
structurally recursive functions on `List Char`. -/

/-- `pat.isPrefixOf l || ...` scan: does `pat` occur as a contiguous
infix of `l`?  Mirrors Python's `pat in s` for nonempty `pat`. -/
def listContains (pat : List Char) : List Char → Bool
  | [] => pat.isPrefixOf []
  | c :: cs => pat.isPrefixOf (c :: cs) || listContains pat cs

/-- Python `sub in s` on strings. -/
def strContains (sub s : String) : Bool := listContains sub.data s.data

/-- Split a character list on a separator character; mirrors Python's
`s.split(sep)` for a single-character separator (all separators used by
the parser are single characters). -/
def splitChar (sep : Char) : List Char → List (List Char)
  | [] => [[]]
  | c :: cs =>
    let r := splitChar sep cs
    if c = sep then [] :: r
    else
      match r with
      | [] => [[c]]
      | h :: t => (c :: h) :: t

/-- Python `s.split(sep)` for a single-character separator. -/
def strSplit (sep : Char) (s : String) : List String :=
  (splitChar sep s.data).map String.mk

/-- Python `sep.join(parts)` for a single-character separator. -/
def joinChar (sep : Char) : List (List Char) → List Char
  | [] => []
  | [l] => l
  | l :: ls => l ++ sep :: joinChar sep ls

/-- Python `str.strip()`: drop whitespace from both ends. -/
def strTrim (s : String) : String :=
  String.mk (((s.data.dropWhile Char.isWhitespace).reverse.dropWhile Char.isWhitespace).reverse)

/-- ASCII lower-casing of one character, as Python `str.lower()` does on
the ASCII state words involved here. -/
def lowerChar (c : Char) : Char :=
  if 65 ≤ c.toNat ∧ c.toNat ≤ 90 then Char.ofNat (c.toNat + 32) else c

/-- Python `s.lower()`. -/
def strLower (s : String) : String := String.mk (s.data.map lowerChar)

/-- Numeric value of a decimal digit character. -/
def digitVal (c : Char) : Nat := c.toNat - 48

/-- Scanner for the regular expression `(\d+)%`: `acc = some n` while
inside a digit run whose value so far is `n`.  Returns the value of the
first maximal digit run that is immediately followed by a percent sign,
exactly as `re.search` finds the leftmost match. -/
def pctScan : Option Nat → List Char → Option Nat
  | _, [] => none
  | none, c :: cs =>
    if c.isDigit then pctScan (some (digitVal c)) cs else pctScan none cs
  | some acc, c :: cs =>
    if c.isDigit then pctScan (some (acc * 10 + digitVal c)) cs
    else if c = '%' then some acc
    else pctScan none cs

/-- `re.search(r'(\d+)%', s)`, returning the captured number. -/
def searchPct (s : String) : Option Nat := pctScan none s.data

/-- `re.search(r'(\d{2}:\d{2})', s)`, returning the first two-digit
colon two-digit window. -/
def timeScan : List Char → Option String
  | c1 :: c2 :: c3 :: c4 :: c5 :: rest =>
    if c1.isDigit && c2.isDigit && c3 == ':' && c4.isDigit && c5.isDigit then
      some (String.mk [c1, c2, c3, c4, c5])
    else timeScan (c2 :: c3 :: c4 :: c5 :: rest)
  | _ => none

/-! ## Reading normalizer (`get_battery_info_linux`) -/

/-- `get_battery_info_fallback`: the reading returned when platform
detection or parsing fails.  Note the state is the literal string
`"Error (<OS>)"`, not `"Unknown"`. -/
def get_battery_info_fallback (os : String) : BatteryReading :=
  { state := "Error (" ++ os ++ ")", percentage := 0, time := none }

/-- The comma-separated branch of the per-line acpi parser
(format `"Battery 0: Full, 100%"`).  `none` means the Python code hit
`continue` and moved on to the next line. -/
def parseCommaLine (line : String) : Option BatteryReading :=
  let data := strSplit ',' line
  if 2 ≤ data.length then
    let d0 := data.getD 0 ""
    let state :=
      if strContains ":" d0 then strTrim ((strSplit ':' d0).getD 1 "") else "Unknown"
    match searchPct (strTrim (data.getD 1 "")) with
    | none => none
    | some p =>
      let time : Option String :=
        if 2 < data.length ∧ state ≠ "Full" ∧ state ≠ "Unknown" then
          let tp := strTrim (data.getD 2 "")
          if strContains " " tp then some ((strSplit ' ' tp).getD 1 "") else none
        else none
      some { state := state, percentage := (p : Int), time := time }
  else none

/-- The colon-separated branch of the per-line acpi parser
(format `"100%\nBattery 1: Discharging"` and variations). -/
def parseColonLine (line : String) : Option BatteryReading :=
  let parts := strSplit ':' line
  if 2 ≤ parts.length then
    let info_part := String.mk ((joinChar ':' ((parts.drop 1).map String.data)))
    let info_part := strTrim info_part
    let pct :=
      match searchPct info_part with
      | some p => some p
      | none => searchPct line
    match pct with
    | none => none
    | some p =>
      let low := strLower info_part
      let state :=
        if strContains "discharging" low then "Discharging"
        else if strContains "charging" low then "Charging"
        else if strContains "full" low || strContains "charged" low then "Full"
        else if strContains "unknown" low then "Unknown"
        else "Unknown"
      some { state := state, percentage := (p : Int), time := timeScan info_part.data }
  else none

/-- One iteration of the line loop in `get_battery_info_linux`:
skip blank lines and lines without `"Battery"`; a line with a comma is
handled only by the comma branch (its `continue` skips the colon
branch), otherwise the colon branch runs. -/
def parseLine (rawLine : String) : Option BatteryReading :=
  let line := strTrim rawLine
  if line = "" ∨ strContains "Battery" line = false then none
  else if strContains "," line then parseCommaLine line
  else if strContains ":" line then parseColonLine line
  else none

/-- `get_battery_info_linux`, given the decoded, stripped output of the
`acpi` command: fall back unless `"Battery"` occurs, otherwise return
the first line that parses, else fall back. -/
def get_battery_info_linux (text : String) : BatteryReading :=
  if strContains "Battery" text = false then get_battery_info_fallback "Linux"
  else
    match (strSplit '\n' text).findSome? parseLine with
    | some r => r
    | none => get_battery_info_fallback "Linux"

/-! ## Monitor configuration and state -/

/-- The user-profile fields that the tick handler reads (each
`self.user_profile.get(..., default)` in `__init__`). -/
structure Config where
  milestone_thresholds : List Int
  charging_milestones : List Int
  notifications_enabled : Bool
  play_sound : Bool
  sleep_notifications_enabled : Bool
  sleep_threshold : Int
deriving DecidableEq, Repr

/-- The hardcoded defaults of `__init__` / `get_default_profile`. -/
def defaultConfig : Config :=
  { milestone_thresholds := [90, 80, 70, 60, 50, 40, 30, 20, 10]
    charging_milestones := [25, 50, 75, 90, 100]
    notifications_enabled := true
    play_sound := true
    sleep_notifications_enabled := true
    sleep_threshold := 300 }

/-- The mutable attributes of the monitor that the tick handler reads or
writes.  `init_tracking` models the `_initialize_milestone_tracking`
flag (present until the first tick, then deleted).  Timestamps are in
whole seconds. -/
structure MonitorState where
  last_milestone_triggered : Option Int
  last_charging_milestone : Option Int
  last_seen_percent : Option Int
  last_percentage : Option Int
  last_state : String
  last_update_time : Int
  was_asleep : Bool
  init_tracking : Bool
deriving DecidableEq, Repr

/-- The state right after `__init__` (where `last_state` starts as
Python `None`, which is never read before being overwritten; it is
modelled by the empty string). -/
def initState (t0 : Int) : MonitorState :=
  { last_milestone_triggered := none
    last_charging_milestone := none
    last_seen_percent := none
    last_percentage := none
    last_state := ""
    last_update_time := t0
    was_asleep := false
    init_tracking := true }

/-- The charging flag derived by `update_battery` (line 2366) and
`pulse_update` (line 2215):
`info['state'] not in ('Discharging', 'Full', 'Unknown')`. -/
def isChargingOf (state : String) : Bool :=
  !(state == "Discharging" || state == "Full" || state == "Unknown")

/-- The charging predicate as the specification words it:
`is_charging = state in (Charging, Full)` (stated for comparison with
the implementation's `isChargingOf`). -/
def is_charging_claimed (state : String) : Bool :=
  state == "Charging" || state == "Full"

/-- `show_desktop_notification`: drops the notification when the global
`notifications_enabled` toggle is off, otherwise dispatches it. -/
def show_desktop_notification (cfg : Config) (title ntype : String) : List Event :=
  if cfg.notifications_enabled then [Event.notify title ntype] else []

/-! ## Milestone checker (`check_milestone_notifications`) -/

/-- Title chosen for a charging milestone notification. -/
def chargingTitle (m : Int) : String :=
  if m = 100 then "🔋 Battery Fully Charged"
  else if 75 ≤ m then "🔋 Battery Almost Full"
  else "🔋 Battery Charging"

/-- Title and notification type chosen for a discharge milestone. -/
def dischargeTitleType (m : Int) : String × String :=
  if m ≤ 10 then ("🔴 Critical Battery Level", "critical")
  else if m ≤ 20 then ("🟠 Low Battery Warning", "warning")
  else if m ≤ 30 then ("🟡 Battery Getting Low", "warning")
  else ("🔋 Battery Milestone", "info")

/-- Beep count for a discharge milestone (more urgent, more beeps). -/
def dischargeBeepCount (m : Int) : Nat :=
  if m ≤ 10 then 3 else if m ≤ 20 then 2 else 1

/-- Loop condition for a charging milestone `m`:
`percentage >= m and (last is None or last < m)`. -/
def chargeFires (percentage : Int) (last : Option Int) (m : Int) : Bool :=
  decide (m ≤ percentage) &&
    (match last with
     | none => true
     | some l => decide (l < m))

/-- Loop condition for a discharge milestone `m`:
`percentage <= m and (last is None or last > m)`. -/
def dischargeFires (percentage : Int) (last : Option Int) (m : Int) : Bool :=
  decide (percentage ≤ m) &&
    (match last with
     | none => true
     | some l => decide (m < l))

/-- `check_milestone_notifications(percentage, is_charging)`: returns
the updated monitor state and the emitted events.  The `for ... break`
loops become `List.find?` over the configured threshold lists in their
stored order; the charging tracker reset sits on the not-charging path
after the loop, exactly as in the source. -/
def check_milestone_notifications (cfg : Config) (s : MonitorState) (percentage : Int)
    (is_charging : Bool) : MonitorState × List Event :=
  if cfg.notifications_enabled = false then (s, [])
  else if is_charging then
    match cfg.charging_milestones.find? (chargeFires percentage s.last_charging_milestone) with
    | none => (s, [])
    | some m =>
      ({ s with last_charging_milestone := some m },
        show_desktop_notification cfg (chargingTitle m) "info" ++
          (if cfg.play_sound then [Event.beep 1] else []))
  else
    match cfg.milestone_thresholds.find? (dischargeFires percentage s.last_milestone_triggered) with
    | none => ({ s with last_charging_milestone := none }, [])
    | some m =>
      ({ s with last_milestone_triggered := some m, last_charging_milestone := none },
        show_desktop_notification cfg (dischargeTitleType m).1 (dischargeTitleType m).2 ++
          (if cfg.play_sound then [Event.beep (dischargeBeepCount m)] else []))

/-! ## Sleep/wake detection and the wake-up notification -/

/-- `show_wake_up_notification`, reduced to the reading-dependent part:
which notification (title, type) and how many beeps are emitted for the
reading obtained after waking.  Note the source tests `percentage <= 20`
BEFORE `percentage <= 10`, so the `'critical'` arm is unreachable, while
the beep count below it does treat `<= 10` as critical. -/
def show_wake_up_notification (cfg : Config) (info : BatteryReading) : List Event :=
  let p := info.percentage
  let is_charging : Bool :=
    strLower info.state == "charging" || strLower info.state == "full"
  let titleType : String × String :=
    if p ≤ 20 ∧ is_charging = false then
      ("⚠️ System Wake-Up - Low Battery Warning", "warning")
    else if p ≤ 10 ∧ is_charging = false then
      ("🔴 System Wake-Up - Critical Battery Level", "critical")
    else ("💻 System Wake-Up - BattMon Active", "info")
  let beeps : Nat :=
    if p ≤ 10 ∧ is_charging = false then 3
    else if p ≤ 20 ∧ is_charging = false then 2
    else 1
  show_desktop_notification cfg titleType.1 titleType.2 ++
    (if cfg.play_sound then [Event.beep beeps] else [])

/-- Condition under which the tick handler infers a wake-up
(lines 2349-2351): sleep notifications on, gap above the threshold, and
the asleep flag not already set. -/
def wakeFires (cfg : Config) (s : MonitorState) (now : Int) : Bool :=
  cfg.sleep_notifications_enabled &&
    decide (cfg.sleep_threshold < now - s.last_update_time) && !s.was_asleep

/-- New value of `was_asleep` after the sleep-detection block. -/
def nextAsleep (cfg : Config) (s : MonitorState) (now : Int) : Bool :=
  if wakeFires cfg s now then true
  else if now - s.last_update_time ≤ cfg.sleep_threshold then false
  else s.was_asleep

/-- Events emitted by the sleep-detection block. -/
def wakeEvents (cfg : Config) (s : MonitorState) (now : Int) (info : BatteryReading) :
    List Event :=
  if wakeFires cfg s now then show_wake_up_notification cfg info else []

/-- Monitor state after the sleep-detection block, including the
unconditional `self.last_update_time = current_time`. -/
def sleepStepState (cfg : Config) (s : MonitorState) (now : Int) : MonitorState :=
  { s with was_asleep := nextAsleep cfg s now, last_update_time := now }

/-! ## Startup seeding and bookkeeping inside `update_battery` -/

/-- Milestone-tracking initialization on the first tick (lines
2368-2398): seed the relevant tracker with the first element of the
descending-sorted threshold list that is at or below the current
percentage, then drop the initialization flag. -/
def seedStep (cfg : Config) (s : MonitorState) (percentage : Int) (is_charging : Bool) :
    MonitorState :=
  if s.init_tracking then
    let s' :=
      if is_charging = false then
        match (List.insertionSort (· ≥ ·) cfg.milestone_thresholds).find?
            (fun m => decide (m ≤ percentage)) with
        | some m => { s with last_milestone_triggered := some m }
        | none => s
      else
        match (List.insertionSort (· ≥ ·) cfg.charging_milestones).find?
            (fun m => decide (m ≤ percentage)) with
        | some m => { s with last_charging_milestone := some m }
        | none => s
    { s' with init_tracking := false }
  else s

/-- The `show_message` bookkeeping (lines 2400-2413): `last_percentage`
and `last_state` track the last console-reported reading. -/
def msgStep (s : MonitorState) (percentage : Int) (state : String) : MonitorState :=
  match s.last_percentage with
  | none => { s with last_percentage := some percentage, last_state := state }
  | some lp =>
    if 5 ≤ (percentage - lp).natAbs ∨ state ≠ s.last_state then
      { s with last_percentage := some percentage, last_state := state }
    else s

/-- The percentage-drop beep policy (lines 2449-2463): on at least a one
point drop while not charging, double beep in the red tier, single beep
in the orange tier, nothing otherwise. -/
def dropBeepEvents (s : MonitorState) (percentage : Int) (is_charging : Bool) : List Event :=
  match s.last_seen_percent with
  | none => []
  | some lsp =>
    if is_charging = false ∧ 1 ≤ lsp - percentage then
      if percentage < 30 then [Event.beep 2]
      else if 30 ≤ percentage ∧ percentage < 50 then [Event.beep 1]
      else []
    else []

/-! ## The tick handler (`update_battery`) -/

/-- Monitor state after the sleep block, seeding and the `show_message`
bookkeeping — the state that `check_milestone_notifications` sees. -/
def preMilestoneState (cfg : Config) (s : MonitorState) (now : Int) (info : BatteryReading) :
    MonitorState :=
  msgStep (seedStep cfg (sleepStepState cfg s now) info.percentage (isChargingOf info.state))
    info.percentage info.state

/-- Monitor state after the milestone check inside the tick. -/
def milState (cfg : Config) (s : MonitorState) (now : Int) (info : BatteryReading) :
    MonitorState :=
  (check_milestone_notifications cfg (preMilestoneState cfg s now info) info.percentage
    (isChargingOf info.state)).1

/-- Events emitted by the milestone check inside the tick. -/
def milPart (cfg : Config) (s : MonitorState) (now : Int) (info : BatteryReading) :
    List Event :=
  (check_milestone_notifications cfg (preMilestoneState cfg s now info) info.percentage
    (isChargingOf info.state)).2

/-- Events emitted by the percentage-drop beep policy inside the tick
(the check reads `last_seen_percent` before it is overwritten). -/
def dropPart (cfg : Config) (s : MonitorState) (now : Int) (info : BatteryReading) :
    List Event :=
  dropBeepEvents (milState cfg s now info) info.percentage (isChargingOf info.state)

/-- `update_battery`: one timer tick at time `now` with reading `info`
(the pure core: icon, tooltip and timer manipulation are excluded GUI
work).  Returns the new monitor state and the emitted events, in
program order: wake-up notification, milestone notification and beeps,
drop beeps; finally `last_seen_percent` is set for the next tick. -/
def update_battery (cfg : Config) (s : MonitorState) (now : Int) (info : BatteryReading) :
    MonitorState × List Event :=
  ({ milState cfg s now info with last_seen_percent := some info.percentage },
    wakeEvents cfg s now info ++ milPart cfg s now info ++ dropPart cfg s now info)

/-! ## Concrete states and run bookkeeping used by the theorems -/

/-- `defaultConfig` with desktop notifications switched off. -/
def configNoNotify : Config := { defaultConfig with notifications_enabled := false }

/-- A monitor state holding a stale charging milestone while the battery
is discharging. -/
def staleChargingState : MonitorState :=
  { last_milestone_triggered := some 60
    last_charging_milestone := some 50
    last_seen_percent := some 49
    last_percentage := some 49
    last_state := "Discharging"
    last_update_time := 0
    was_asleep := false
    init_tracking := false }

/-- A monitor state in which nothing but the wake-up logic can emit an
event on the next tick: critically low, already at the lowest milestone
band, no pending percentage drop. -/
def wakeBugState : MonitorState :=
  { last_milestone_triggered := some 10
    last_charging_milestone := none
    last_seen_percent := some 5
    last_percentage := some 5
    last_state := "Discharging"
    last_update_time := 0
    was_asleep := false
    init_tracking := false }

/-- A post-seeding monitor state discharging at 50%. -/
def exampleDischargeState : MonitorState :=
  { last_milestone_triggered := some 50
    last_charging_milestone := none
    last_seen_percent := some 55
    last_percentage := some 55
    last_state := "Discharging"
    last_update_time := 2
    was_asleep := false
    init_tracking := false }

/-- A monitor state carrying a charging milestone from a finished
charging session. -/
def exampleChargedState : MonitorState :=
  { last_milestone_triggered := none
    last_charging_milestone := some 50
    last_seen_percent := some 41
    last_percentage := some 41
    last_state := "Charging"
    last_update_time := 0
    was_asleep := false
    init_tracking := false }

/-- Number of desktop notifications in an event list. -/
def countNotify : List Event → Nat
  | [] => 0
  | Event.notify _ _ :: es => countNotify es + 1
  | Event.beep _ :: es => countNotify es

/-- The milestone that a single check fired, read off the tracker: the
tracker changes exactly when a discharge milestone notification fires,
and then holds the fired threshold. -/
def firedOf (s s' : MonitorState) : Option Int :=
  if s'.last_milestone_triggered = s.last_milestone_triggered then none
  else s'.last_milestone_triggered

/-- The list of discharge milestones fired along a run of consecutive
not-charging milestone checks with the given tick percentages. -/
def runFired (cfg : Config) : MonitorState → List Int → List Int
  | _, [] => []
  | s, p :: ps =>
    match firedOf s (check_milestone_notifications cfg s p false).1 with
    | some m => m :: runFired cfg (check_milestone_notifications cfg s p false).1 ps
    | none => runFired cfg (check_milestone_notifications cfg s p false).1 ps

/-- A discharging state one tick before the spec's `31 → 29` example. -/
def dropRedState : MonitorState :=
  { last_milestone_triggered := some 30
    last_charging_milestone := none
    last_seen_percent := some 31
    last_percentage := some 31
    last_state := "Discharging"
    last_update_time := 0
    was_asleep := false
    init_tracking := false }

/-- A discharging state one tick before the spec's `55 → 44` example. -/
def dropOrangeState : MonitorState :=
  { last_milestone_triggered := some 50
    last_charging_milestone := none
    last_seen_percent := some 55
    last_percentage := some 55
    last_state := "Discharging"
    last_update_time := 0
    was_asleep := false
    init_tracking := false }

/-- A discharging state one tick before the spec's `80 → 76` example. -/
def dropGreenState : MonitorState :=
  { last_milestone_triggered := some 90
    last_charging_milestone := none
    last_seen_percent := some 80
    last_percentage := some 80
    last_state := "Discharging"
    last_update_time := 0
    was_asleep := false
    init_tracking := false }

/-! ## Helper lemmas about the tick pipeline -/

lemma enabled_true_of_ne_false {b : Bool} (h : ¬b = false) : b = true := by
  cases b <;> simp_all

lemma dischargeFires_spec {p : Int} {last : Option Int} {m : Int}
    (h : dischargeFires p last m = true) :
    p ≤ m ∧ ∀ l, last = some l → m < l := by
  unfold dischargeFires at h
  cases last with
  | none => simp_all
  | some l => simp_all

lemma chargeFires_spec {p : Int} {last : Option Int} {m : Int}
    (h : chargeFires p last m = true) :
    m ≤ p ∧ ∀ l, last = some l → l < m := by
  unfold chargeFires at h
  cases last with
  | none => simp_all
  | some l => simp_all

lemma check_preserves_misc (cfg : Config) (s : MonitorState) (p : Int) (c : Bool) :
    (check_milestone_notifications cfg s p c).1.last_seen_percent = s.last_seen_percent ∧
    (check_milestone_notifications cfg s p c).1.last_update_time = s.last_update_time ∧
    (check_milestone_notifications cfg s p c).1.init_tracking = s.init_tracking ∧
    (check_milestone_notifications cfg s p c).1.was_asleep = s.was_asleep := by
  by_cases he : cfg.notifications_enabled = false
  · simp [check_milestone_notifications, he]
  · cases c with
    | true =>
      cases hf : cfg.charging_milestones.find? (chargeFires p s.last_charging_milestone) with
      | none => simp [check_milestone_notifications, he, hf]
      | some m => simp [check_milestone_notifications, he, hf]
    | false =>
      cases hf : cfg.milestone_thresholds.find? (dischargeFires p s.last_milestone_triggered) with
      | none => simp [check_milestone_notifications, he, hf]
      | some m => simp [check_milestone_notifications, he, hf]

lemma check_charging_keeps_discharge_tracker (cfg : Config) (s : MonitorState) (p : Int) :
    (check_milestone_notifications cfg s p true).1.last_milestone_triggered =
      s.last_milestone_triggered := by
  by_cases he : cfg.notifications_enabled = false
  · simp [check_milestone_notifications, he]
  · cases hf : cfg.charging_milestones.find? (chargeFires p s.last_charging_milestone) with
    | none => simp [check_milestone_notifications, he, hf]
    | some m => simp [check_milestone_notifications, he, hf]

lemma check_discharge_resets_charging (cfg : Config) (s : MonitorState) (p : Int)
    (h : cfg.notifications_enabled = true) :
    (check_milestone_notifications cfg s p false).1.last_charging_milestone = none := by
  cases hf : cfg.milestone_thresholds.find? (dischargeFires p s.last_milestone_triggered) with
  | none => simp [check_milestone_notifications, h, hf]
  | some m => simp [check_milestone_notifications, h, hf]

lemma check_discharge_cases (cfg : Config) (s : MonitorState) (p : Int) :
    ((check_milestone_notifications cfg s p false).1.last_milestone_triggered =
        s.last_milestone_triggered ∧
      (check_milestone_notifications cfg s p false).2 = []) ∨
    (∃ m, cfg.milestone_thresholds.find? (dischargeFires p s.last_milestone_triggered) = some m ∧
      cfg.notifications_enabled = true ∧
      (check_milestone_notifications cfg s p false).1.last_milestone_triggered = some m ∧
      (check_milestone_notifications cfg s p false).2 ≠ []) := by
  by_cases he : cfg.notifications_enabled = false
  · left; simp [check_milestone_notifications, he]
  · have he' := enabled_true_of_ne_false he
    cases hf : cfg.milestone_thresholds.find? (dischargeFires p s.last_milestone_triggered) with
    | none => left; simp [check_milestone_notifications, he, hf]
    | some m =>
      right
      refine ⟨m, rfl, he', ?_, ?_⟩
      · simp [check_milestone_notifications, he, hf]
      · simp [check_milestone_notifications, he, hf, show_desktop_notification, he']

lemma sleepStep_fields (cfg : Config) (s : MonitorState) (now : Int) :
    (sleepStepState cfg s now).last_milestone_triggered = s.last_milestone_triggered ∧
    (sleepStepState cfg s now).last_charging_milestone = s.last_charging_milestone ∧
    (sleepStepState cfg s now).last_seen_percent = s.last_seen_percent ∧
    (sleepStepState cfg s now).init_tracking = s.init_tracking ∧
    (sleepStepState cfg s now).last_update_time = now :=
  ⟨rfl, rfl, rfl, rfl, rfl⟩

lemma seedStep_skip (cfg : Config) (s : MonitorState) (p : Int) (ic : Bool)
    (h : s.init_tracking = false) : seedStep cfg s p ic = s := by
  simp [seedStep, h]

lemma seedStep_misc (cfg : Config) (s : MonitorState) (p : Int) (ic : Bool) :
    (seedStep cfg s p ic).last_seen_percent = s.last_seen_percent ∧
    (seedStep cfg s p ic).last_update_time = s.last_update_time ∧
    (seedStep cfg s p ic).was_asleep = s.was_asleep := by
  by_cases hi : s.init_tracking
  · cases ic with
    | false =>
      cases hf : (List.insertionSort (· ≥ ·) cfg.milestone_thresholds).find?
          (fun m => decide (m ≤ p)) with
      | none => simp [seedStep, hi, hf]
      | some m => simp [seedStep, hi, hf]
    | true =>
      cases hf : (List.insertionSort (· ≥ ·) cfg.charging_milestones).find?
          (fun m => decide (m ≤ p)) with
      | none => simp [seedStep, hi, hf]
      | some m => simp [seedStep, hi, hf]
  · simp [seedStep, hi]

lemma msgStep_fields (s : MonitorState) (p : Int) (st : String) :
    (msgStep s p st).last_milestone_triggered = s.last_milestone_triggered ∧
    (msgStep s p st).last_charging_milestone = s.last_charging_milestone ∧
    (msgStep s p st).last_seen_percent = s.last_seen_percent ∧
    (msgStep s p st).init_tracking = s.init_tracking ∧
    (msgStep s p st).last_update_time = s.last_update_time ∧
    (msgStep s p st).was_asleep = s.was_asleep := by
  unfold msgStep
  cases hl : s.last_percentage with
  | none => exact ⟨rfl, rfl, rfl, rfl, rfl, rfl⟩
  | some lp =>
    by_cases hc : 5 ≤ (p - lp).natAbs ∨ st ≠ s.last_state
    · simp [hc]
    · simp [hc]

lemma preMilestone_tracked (cfg : Config) (s : MonitorState) (now : Int)
    (info : BatteryReading) (hinit : s.init_tracking = false) :
    (preMilestoneState cfg s now info).last_milestone_triggered = s.last_milestone_triggered ∧
    (preMilestoneState cfg s now info).last_charging_milestone = s.last_charging_milestone := by
  unfold preMilestoneState
  rw [seedStep_skip _ _ _ _ ((sleepStep_fields cfg s now).2.2.2.1.trans hinit)]
  exact ⟨(msgStep_fields _ _ _).1.trans (sleepStep_fields cfg s now).1,
    (msgStep_fields _ _ _).2.1.trans (sleepStep_fields cfg s now).2.1⟩

lemma preMilestone_seen (cfg : Config) (s : MonitorState) (now : Int)
    (info : BatteryReading) :
    (preMilestoneState cfg s now info).last_seen_percent = s.last_seen_percent := by
  unfold preMilestoneState
  exact ((msgStep_fields _ _ _).2.2.1.trans (seedStep_misc _ _ _ _).1).trans
    (sleepStep_fields cfg s now).2.2.1

lemma preMilestone_time (cfg : Config) (s : MonitorState) (now : Int)
    (info : BatteryReading) :
    (preMilestoneState cfg s now info).last_update_time = now := by
  unfold preMilestoneState
  exact ((msgStep_fields _ _ _).2.2.2.2.1.trans (seedStep_misc _ _ _ _).2.1).trans
    (sleepStep_fields cfg s now).2.2.2.2

lemma milState_seen (cfg : Config) (s : MonitorState) (now : Int) (info : BatteryReading) :
    (milState cfg s now info).last_seen_percent = s.last_seen_percent := by
  unfold milState
  exact (check_preserves_misc _ _ _ _).1.trans (preMilestone_seen cfg s now info)

lemma update_time_now (cfg : Config) (s : MonitorState) (now : Int) (info : BatteryReading) :
    (update_battery cfg s now info).1.last_update_time = now := by
  show (milState cfg s now info).last_update_time = now
  unfold milState
  exact (check_preserves_misc _ _ _ _).2.1.trans (preMilestone_time cfg s now info)

/-! ## Claim C1: the derived charging flag -/

/-- C1 (counterexample): the claim says the derived flag is true iff the
state is `Charging` or `Full`; at the concrete state `"Full"` the code
disagrees with that reading of the flag (the code yields `false`). -/
theorem C1_counterexample : isChargingOf "Full" ≠ is_charging_claimed "Full" := by decide

/-- C1 (amended): the tick handler's `is_charging` flag is true exactly
when the state string is none of `"Discharging"`, `"Full"`, `"Unknown"`;
hence `"Full"` and `"Unknown"` are classified as not charging, while any
unrecognized state string (such as `"Error (Linux)"`) is classified as
charging. -/
theorem C1_is_charging_characterization :
    (∀ st : String, isChargingOf st = true ↔
      (st ≠ "Discharging" ∧ st ≠ "Full" ∧ st ≠ "Unknown")) ∧
    isChargingOf "Unknown" = false ∧ isChargingOf "Error (Linux)" = true := by
  refine ⟨?_, by decide, by decide⟩
  intro st
  simp [isChargingOf, not_or, and_assoc]

/-! ## Claim C10: disabled notifications freeze the milestone checker -/

/-- C10: with `notifications_enabled` off, `check_milestone_notifications`
returns the state unchanged (both trackers untouched — in particular no
reset of the charging tracker on a charging-to-discharging transition)
and emits no notification and no beep. -/
theorem C10_disabled_is_frame (cfg : Config) (s : MonitorState) (p : Int) (c : Bool)
    (h : cfg.notifications_enabled = false) :
    check_milestone_notifications cfg s p c = (s, []) := by
  simp [check_milestone_notifications, h]


/-- C10 (witness): a not-charging milestone check with notifications
disabled leaves the stale charging tracker at `some 50`. -/
theorem C10_disabled_is_frame_witness :
    configNoNotify.notifications_enabled = false ∧
    staleChargingState.last_charging_milestone = some 50 ∧
    check_milestone_notifications configNoNotify staleChargingState 49 false =
      (staleChargingState, []) :=
  ⟨rfl, rfl, C10_disabled_is_frame configNoNotify staleChargingState 49 false rfl⟩

/-! ## Claim C6: malformed raw battery text -/

/-- C6 (counterexample): on the empty raw string the normalizer does
return percentage `0` and no time, but its state is the fallback marker
`"Error (Linux)"`, not `"Unknown"` as claimed. -/
theorem C6_counterexample :
    (get_battery_info_linux "").state = "Error (Linux)" ∧
    (get_battery_info_linux "").state ≠ "Unknown" ∧
    (get_battery_info_linux "").percentage = 0 ∧
    (get_battery_info_linux "").time = none := by decide

/-- C6 (amended): for every raw battery query result that does not
contain the keyword `"Battery"` (for example the empty string), the
reading normalizer returns the total fallback reading
`{state := "Error (Linux)", percentage := 0, time := none}` — it never
raises, being a total function, but the state marker is `"Error (...)"`
rather than `"Unknown"`. -/
theorem C6_malformed_fallback (t : String) (h : strContains "Battery" t = false) :
    get_battery_info_linux t =
      { state := "Error (Linux)", percentage := 0, time := none } := by
  simp [get_battery_info_linux, h, get_battery_info_fallback]

/-- C6 (witness): the empty raw string. -/
theorem C6_malformed_fallback_witness :
    strContains "Battery" "" = false ∧
    get_battery_info_linux "" =
      { state := "Error (Linux)", percentage := 0, time := none } :=
  ⟨by decide, C6_malformed_fallback "" (by decide)⟩

/-! ## Claim C7: parsed percentages are nonnegative but not clamped -/

lemma findSome?_mem {α β : Type} {f : α → Option β} :
    ∀ {l : List α} {b : β}, l.findSome? f = some b → ∃ a ∈ l, f a = some b := by
  intro l
  induction l with
  | nil => intro b h; simp [List.findSome?] at h
  | cons a t ih =>
    intro b h
    rw [List.findSome?_cons] at h
    cases hf : f a with
    | some c =>
      rw [hf] at h
      simp only [Option.some.injEq] at h
      exact ⟨a, by simp, by rw [hf, h]⟩
    | none =>
      rw [hf] at h
      simp only [] at h
      obtain ⟨a', ha', hfa'⟩ := ih h
      exact ⟨a', by simp [ha'], hfa'⟩

lemma parseCommaLine_nonneg {line : String} {r : BatteryReading}
    (h : parseCommaLine line = some r) : 0 ≤ r.percentage := by
  simp only [parseCommaLine] at h
  split at h
  · split at h
    · exact absurd h (by simp)
    · rw [Option.some_inj] at h
      rw [← h]
      exact Int.natCast_nonneg _
  · exact absurd h (by simp)

lemma parseColonLine_nonneg {line : String} {r : BatteryReading}
    (h : parseColonLine line = some r) : 0 ≤ r.percentage := by
  simp only [parseColonLine] at h
  split at h
  · split at h
    · exact absurd h (by simp)
    · rw [Option.some_inj] at h
      rw [← h]
      exact Int.natCast_nonneg _
  · exact absurd h (by simp)

lemma parseLine_nonneg {line : String} {r : BatteryReading}
    (h : parseLine line = some r) : 0 ≤ r.percentage := by
  simp only [parseLine] at h
  split at h
  · exact absurd h (by simp)
  · split at h
    · exact parseCommaLine_nonneg h
    · split at h
      · exact parseColonLine_nonneg h
      · exact absurd h (by simp)

/-- C7 (counterexample): raw text carrying `150%` is parsed to a reading
whose percentage is `150`, outside `[0,100]` — the normalizer performs
no clamping. -/
theorem C7_counterexample :
    (get_battery_info_linux "Battery 0: Discharging, 150%").percentage = 150 ∧
    ¬(get_battery_info_linux "Battery 0: Discharging, 150%").percentage ≤ 100 := by decide

/-- C7 (amended): for every raw battery text, the percentage of the
normalized reading is a nonnegative integer (a parsed decimal or the
fallback `0`), but it is not clamped from above: out-of-range raw values
such as `150%` are returned as they are. -/
theorem C7_percentage_nonneg_unclamped :
    ∀ t : String, 0 ≤ (get_battery_info_linux t).percentage := by
  intro t
  unfold get_battery_info_linux
  split
  · simp [get_battery_info_fallback]
  · cases hf : (strSplit '\n' t).findSome? parseLine with
    | none => simp [hf, get_battery_info_fallback]
    | some r =>
      simp only [hf]
      obtain ⟨a, _, ha⟩ := findSome?_mem hf
      exact parseLine_nonneg ha

/-! ## Claim C8: sleep/wake detection and wake-up severity -/

/-- C8 (code bug): a tick with gap `301 > sleep_threshold = 300` at 5%
discharging emits exactly one wake-up notification — but its type is
`'warning'`, not `'critical'`: the source tests `percentage <= 20`
before `percentage <= 10`, so the `'critical'` arm can never run, even
though the adjacent beep logic in the same function treats `<= 10` as
critical (3 beeps).  A gap of `299 <= 300` emits nothing and clears the
asleep flag, and `last_update_time` is set to the tick time on every
tick, as the claim says. -/
theorem C8_wake_severity_bug :
    show_wake_up_notification defaultConfig
        { state := "Discharging", percentage := 5, time := none } =
      [Event.notify "⚠️ System Wake-Up - Low Battery Warning" "warning", Event.beep 3] ∧
    (update_battery defaultConfig wakeBugState 301
        { state := "Discharging", percentage := 5, time := none }).2 =
      [Event.notify "⚠️ System Wake-Up - Low Battery Warning" "warning", Event.beep 3] ∧
    (update_battery defaultConfig wakeBugState 301
        { state := "Discharging", percentage := 5, time := none }).1.was_asleep = true ∧
    (update_battery defaultConfig wakeBugState 299
        { state := "Discharging", percentage := 5, time := none }).2 = [] ∧
    (update_battery defaultConfig wakeBugState 299
        { state := "Discharging", percentage := 5, time := none }).1.was_asleep = false ∧
    (∀ cfg s now info, (update_battery cfg s now info).1.last_update_time = now) :=
  ⟨by decide, by decide, by decide, by decide, by decide, update_time_now⟩

/-! ## Claim C2: startup seeding at 55% -/

/-- C2 (counterexample): launching (first tick) at 55% discharging with
the default thresholds `[90, 80, 70, 60, 50, 40, 30, 20, 10]` seeds the
discharge tracker to `50` — the highest threshold at or below 55 — and
not to `60` as claimed. -/
theorem C2_counterexample :
    (update_battery defaultConfig (initState 0) 2
        { state := "Discharging", percentage := 55, time := none }).1.last_milestone_triggered =
      some 50 ∧
    (update_battery defaultConfig (initState 0) 2
        { state := "Discharging", percentage := 55, time := none }).1.last_milestone_triggered ≠
      some 60 := by decide

/-- C2 (amended): the first tick at 55% discharging seeds
`last_milestone_triggered = 50` and emits no event; afterwards a
discharge milestone notification fires on a later discharging tick
exactly when its percentage is at or below 40 (the highest threshold
strictly below the seed), not already below 50. -/
theorem C2_seeding_amended :
    (update_battery defaultConfig (initState 0) 2
        { state := "Discharging", percentage := 55, time := none }).1.last_milestone_triggered =
      some 50 ∧
    (update_battery defaultConfig (initState 0) 2
        { state := "Discharging", percentage := 55, time := none }).2 = [] ∧
    ∀ p : Int,
      (check_milestone_notifications defaultConfig
          (update_battery defaultConfig (initState 0) 2
            { state := "Discharging", percentage := 55, time := none }).1 p false).2 ≠ [] ↔
        p ≤ 40 := by
  refine ⟨by decide, by decide, ?_⟩
  have hs : (update_battery defaultConfig (initState 0) 2
      { state := "Discharging", percentage := 55, time := none }).1 =
      { last_milestone_triggered := some 50
        last_charging_milestone := none
        last_seen_percent := some 55
        last_percentage := some 55
        last_state := "Discharging"
        last_update_time := 2
        was_asleep := false
        init_tracking := false } := by decide
  rw [hs]
  intro p
  by_cases hp : p ≤ 40
  · have h40 : dischargeFires p (some 50) 40 = true := by
      simp [dischargeFires, hp]
    simp [check_milestone_notifications, defaultConfig, List.find?, dischargeFires,
      show_desktop_notification, hp]
  · have h30 : ¬p ≤ 30 := by omega
    have h20 : ¬p ≤ 20 := by omega
    have h10 : ¬p ≤ 10 := by omega
    simp [check_milestone_notifications, defaultConfig, List.find?, dischargeFires,
      hp, h30, h20, h10]

/-! ## Claim C3: monotonicity of the discharge milestone tracker -/

/-- C3 (counterexample): after a first discharging tick at 55% has set
the tracker to `50`, the tick on which charging begins leaves the
tracker at `some 50` — it is not reset to `None` as the claim states. -/
theorem C3_counterexample :
    (update_battery defaultConfig
        (update_battery defaultConfig (initState 0) 2
          { state := "Discharging", percentage := 55, time := none }).1 4
        { state := "Charging", percentage := 56, time := none }).1.last_milestone_triggered =
      some 50 ∧
    (update_battery defaultConfig
        (update_battery defaultConfig (initState 0) 2
          { state := "Discharging", percentage := 55, time := none }).1 4
        { state := "Charging", percentage := 56, time := none }).1.last_milestone_triggered ≠
      none := by decide

/-- C3 (amended): after startup seeding is done, once the discharge
tracker holds `some l` it can only stay or move to a strictly lower
threshold on a discharging tick, and it is left unchanged — not cleared —
on a tick where charging begins. -/
theorem C3_tracker_monotone (cfg : Config) (s : MonitorState) (now : Int)
    (info : BatteryReading) (hinit : s.init_tracking = false) (l : Int)
    (hl : s.last_milestone_triggered = some l) :
    (isChargingOf info.state = false →
      ((update_battery cfg s now info).1.last_milestone_triggered = some l ∨
        ∃ m, (update_battery cfg s now info).1.last_milestone_triggered = some m ∧ m < l)) ∧
    (isChargingOf info.state = true →
      (update_battery cfg s now info).1.last_milestone_triggered = some l) := by
  have hpre := (preMilestone_tracked cfg s now info hinit).1
  have hup : (update_battery cfg s now info).1.last_milestone_triggered =
      (milState cfg s now info).last_milestone_triggered := rfl
  constructor
  · intro hic
    rw [hup]
    unfold milState
    rw [hic]
    rcases check_discharge_cases cfg (preMilestoneState cfg s now info) info.percentage with
      ⟨heq, _⟩ | ⟨m, hfind, _, hset, _⟩
    · left; rw [heq, hpre, hl]
    · have hm := List.find?_some hfind
      obtain ⟨-, hlt⟩ := dischargeFires_spec hm
      right
      exact ⟨m, hset, hlt l (hpre.trans hl)⟩
  · intro hic
    rw [hup]
    unfold milState
    rw [hic]
    rw [check_charging_keeps_discharge_tracker, hpre, hl]

/-- C3 (witness): a concrete post-seeding state with the tracker at 50
and a further discharging tick at 45%. -/
theorem C3_tracker_monotone_witness :
    exampleDischargeState.init_tracking = false ∧
    exampleDischargeState.last_milestone_triggered = some 50 ∧
    ((isChargingOf (BatteryReading.mk "Discharging" 45 none).state = false →
      ((update_battery defaultConfig exampleDischargeState 4
          (BatteryReading.mk "Discharging" 45 none)).1.last_milestone_triggered = some 50 ∨
        ∃ m, (update_battery defaultConfig exampleDischargeState 4
          (BatteryReading.mk "Discharging" 45 none)).1.last_milestone_triggered = some m ∧
          m < 50)) ∧
    (isChargingOf (BatteryReading.mk "Discharging" 45 none).state = true →
      (update_battery defaultConfig exampleDischargeState 4
        (BatteryReading.mk "Discharging" 45 none)).1.last_milestone_triggered = some 50)) :=
  ⟨rfl, rfl,
    C3_tracker_monotone defaultConfig exampleDischargeState 4
      (BatteryReading.mk "Discharging" 45 none) rfl 50 rfl⟩

/-! ## Claim C4: the charging milestone tracker reset -/

/-- C4 (counterexample): with notifications disabled, the first tick
(charging, 50%) still seeds the charging tracker to `50`, and the
following discharging tick does not reset it — the milestone check
returns before the reset, so the tracker stays `some 50`. -/
theorem C4_counterexample :
    (update_battery configNoNotify
        (update_battery configNoNotify (initState 0) 2
          { state := "Charging", percentage := 50, time := none }).1 4
        { state := "Discharging", percentage := 49, time := none }).1.last_charging_milestone =
      some 50 ∧
    (update_battery configNoNotify
        (update_battery configNoNotify (initState 0) 2
          { state := "Charging", percentage := 50, time := none }).1 4
        { state := "Discharging", percentage := 49, time := none }).1.last_charging_milestone ≠
      none := by decide

/-- C4 (amended): after every tick with notifications enabled and
`is_charging` false, the charging tracker is `None` (with notifications
disabled the reset is skipped).  Consequently, with notifications
enabled, the 50% charging milestone that fires in one charging session
fires again in a later charging session once 50% is reached again after
an intervening discharge tick, as the concrete five-tick run shows. -/
theorem C4_charging_tracker_reset :
    (∀ (cfg : Config) (s : MonitorState) (now : Int) (info : BatteryReading),
      cfg.notifications_enabled = true → isChargingOf info.state = false →
      (update_battery cfg s now info).1.last_charging_milestone = none) ∧
    ((update_battery defaultConfig
        (update_battery defaultConfig (initState 0) 2
          { state := "Charging", percentage := 30, time := none }).1 4
        { state := "Charging", percentage := 50, time := none }).1.last_charging_milestone =
      some 50 ∧
     (update_battery defaultConfig
        (update_battery defaultConfig (initState 0) 2
          { state := "Charging", percentage := 30, time := none }).1 4
        { state := "Charging", percentage := 50, time := none }).2 ≠ [] ∧
     (update_battery defaultConfig
        (update_battery defaultConfig
          (update_battery defaultConfig (initState 0) 2
            { state := "Charging", percentage := 30, time := none }).1 4
          { state := "Charging", percentage := 50, time := none }).1 6
        { state := "Discharging", percentage := 49, time := none }).1.last_charging_milestone =
      none ∧
     (update_battery defaultConfig
        (update_battery defaultConfig
          (update_battery defaultConfig
            (update_battery defaultConfig
              (update_battery defaultConfig (initState 0) 2
                { state := "Charging", percentage := 30, time := none }).1 4
              { state := "Charging", percentage := 50, time := none }).1 6
            { state := "Discharging", percentage := 49, time := none }).1 8
          { state := "Charging", percentage := 50, time := none }).1 10
        { state := "Charging", percentage := 50, time := none }).1.last_charging_milestone =
      some 50 ∧
     (update_battery defaultConfig
        (update_battery defaultConfig
          (update_battery defaultConfig
            (update_battery defaultConfig
              (update_battery defaultConfig (initState 0) 2
                { state := "Charging", percentage := 30, time := none }).1 4
              { state := "Charging", percentage := 50, time := none }).1 6
            { state := "Discharging", percentage := 49, time := none }).1 8
          { state := "Charging", percentage := 50, time := none }).1 10
        { state := "Charging", percentage := 50, time := none }).2 ≠ []) := by
  constructor
  · intro cfg s now info hen hic
    have hup : (update_battery cfg s now info).1.last_charging_milestone =
        (milState cfg s now info).last_charging_milestone := rfl
    rw [hup]
    unfold milState
    rw [hic]
    exact check_discharge_resets_charging cfg _ info.percentage hen
  · exact ⟨by decide, by decide, by decide, by decide, by decide⟩

/-- C4 (witness): the universal reset property at a concrete
discharging tick. -/
theorem C4_charging_tracker_reset_witness :
    defaultConfig.notifications_enabled = true ∧
    isChargingOf (BatteryReading.mk "Discharging" 40 none).state = false ∧
    (update_battery defaultConfig exampleChargedState 2
        (BatteryReading.mk "Discharging" 40 none)).1.last_charging_milestone = none :=
  ⟨rfl, by decide,
    C4_charging_tracker_reset.1 defaultConfig exampleChargedState 2
      (BatteryReading.mk "Discharging" 40 none) rfl (by decide)⟩

/-! ## Claim C5: at most one milestone notification per tick, no double fire -/


lemma countNotify_le_one (cfg : Config) (s : MonitorState) (p : Int) (c : Bool) :
    countNotify (check_milestone_notifications cfg s p c).2 ≤ 1 := by
  by_cases he : cfg.notifications_enabled = false
  · simp [check_milestone_notifications, he, countNotify]
  · have he' := enabled_true_of_ne_false he
    cases c with
    | true =>
      cases hf : cfg.charging_milestones.find? (chargeFires p s.last_charging_milestone) with
      | none => simp [check_milestone_notifications, he, hf, countNotify]
      | some m =>
        by_cases hp : cfg.play_sound = true <;>
          simp [check_milestone_notifications, he, hf, show_desktop_notification, he', hp,
            countNotify]
    | false =>
      cases hf : cfg.milestone_thresholds.find? (dischargeFires p s.last_milestone_triggered) with
      | none => simp [check_milestone_notifications, he, hf, countNotify]
      | some m =>
        by_cases hp : cfg.play_sound = true <;>
          simp [check_milestone_notifications, he, hf, show_desktop_notification, he', hp,
            countNotify]

lemma fired_tracker_ne {cfg : Config} {s : MonitorState} {p m : Int}
    (hfind : cfg.milestone_thresholds.find? (dischargeFires p s.last_milestone_triggered) =
      some m)
    (hset : (check_milestone_notifications cfg s p false).1.last_milestone_triggered = some m) :
    (check_milestone_notifications cfg s p false).1.last_milestone_triggered ≠
      s.last_milestone_triggered := by
  have hspec := dischargeFires_spec (List.find?_some hfind)
  rw [hset]
  cases hold : s.last_milestone_triggered with
  | none => simp
  | some l =>
    have := hspec.2 l hold
    simp only [ne_eq, Option.some.injEq]
    omega

lemma check_fire_iff (cfg : Config) (s : MonitorState) (p : Int) :
    (check_milestone_notifications cfg s p false).2 ≠ [] ↔
      (check_milestone_notifications cfg s p false).1.last_milestone_triggered ≠
        s.last_milestone_triggered := by
  rcases check_discharge_cases cfg s p with ⟨heq, hev⟩ | ⟨m, hfind, _, hset, hev⟩
  · simp [hev, heq]
  · constructor
    · intro _
      exact fired_tracker_ne hfind hset
    · intro _
      exact hev

lemma runFired_lt (cfg : Config) : ∀ (ps : List Int) (s : MonitorState) (l : Int),
    s.last_milestone_triggered = some l → ∀ x ∈ runFired cfg s ps, x < l := by
  intro ps
  induction ps with
  | nil => intro s l _ x hx; simp [runFired] at hx
  | cons p ps ih =>
    intro s l hl x hx
    rcases check_discharge_cases cfg s p with ⟨heq, _⟩ | ⟨m, hfind, _, hset, _⟩
    · have hfod : firedOf s (check_milestone_notifications cfg s p false).1 = none := by
        simp [firedOf, heq]
      simp only [runFired, hfod] at hx
      exact ih _ l (heq.trans hl) x hx
    · have hne := fired_tracker_ne hfind hset
      have hfod : firedOf s (check_milestone_notifications cfg s p false).1 = some m := by
        simp only [firedOf, if_neg hne]
        exact hset
      have hml : m < l := (dischargeFires_spec (List.find?_some hfind)).2 l hl
      simp only [runFired, hfod] at hx
      rcases List.mem_cons.mp hx with rfl | hx'
      · exact hml
      · exact lt_trans (ih _ m hset x hx') hml

lemma runFired_pairwise (cfg : Config) : ∀ (ps : List Int) (s : MonitorState),
    List.Pairwise (fun a b => b < a) (runFired cfg s ps) := by
  intro ps
  induction ps with
  | nil => intro s; simp [runFired]
  | cons p ps ih =>
    intro s
    rcases check_discharge_cases cfg s p with ⟨heq, _⟩ | ⟨m, hfind, _, hset, _⟩
    · have hfod : firedOf s (check_milestone_notifications cfg s p false).1 = none := by
        simp [firedOf, heq]
      simp only [runFired, hfod]
      exact ih _
    · have hne := fired_tracker_ne hfind hset
      have hfod : firedOf s (check_milestone_notifications cfg s p false).1 = some m := by
        simp only [firedOf, if_neg hne]
        exact hset
      simp only [runFired, hfod]
      exact List.Pairwise.cons (fun x hx => runFired_lt cfg ps _ m hset x hx) (ih _)

/-- C5: (i) a single milestone check emits at most one desktop
notification (so at most one per direction, as only one direction is
evaluated per tick); (ii) on a not-charging tick a milestone
notification is emitted exactly when the discharge tracker changes, and
then the tracker holds the fired threshold; (iii) along any run of
consecutive not-charging checks, the fired thresholds are strictly
decreasing, hence (iv) no threshold ever fires twice. -/
theorem C5_milestone_uniqueness :
    (∀ (cfg : Config) (s : MonitorState) (p : Int) (c : Bool),
      countNotify (check_milestone_notifications cfg s p c).2 ≤ 1) ∧
    (∀ (cfg : Config) (s : MonitorState) (p : Int),
      (check_milestone_notifications cfg s p false).2 ≠ [] ↔
        (check_milestone_notifications cfg s p false).1.last_milestone_triggered ≠
          s.last_milestone_triggered) ∧
    (∀ (cfg : Config) (s : MonitorState) (ps : List Int),
      List.Pairwise (fun a b => b < a) (runFired cfg s ps)) ∧
    (∀ (cfg : Config) (s : MonitorState) (ps : List Int), (runFired cfg s ps).Nodup) :=
  ⟨countNotify_le_one, check_fire_iff,
    fun cfg s ps => runFired_pairwise cfg ps s,
    fun cfg s ps => (runFired_pairwise cfg ps s).imp (fun h => ne_of_gt h)⟩

/-! ## Claim C9: the percentage-drop beep -/

lemma dropBeepEvents_spec (s : MonitorState) (p l : Int)
    (hseen : s.last_seen_percent = some l) :
    dropBeepEvents s p false =
      (if 1 ≤ l - p then
        (if p < 30 then [Event.beep 2]
         else if 30 ≤ p ∧ p < 50 then [Event.beep 1]
         else [])
       else []) := by
  unfold dropBeepEvents
  rw [hseen]
  simp

lemma dropPart_spec (cfg : Config) (s : MonitorState) (now : Int) (info : BatteryReading)
    (l : Int) (hseen : s.last_seen_percent = some l) (hic : isChargingOf info.state = false) :
    dropPart cfg s now info =
      (if 1 ≤ l - info.percentage then
        (if info.percentage < 30 then [Event.beep 2]
         else if 30 ≤ info.percentage ∧ info.percentage < 50 then [Event.beep 1]
         else [])
       else []) := by
  unfold dropPart
  rw [hic]
  exact dropBeepEvents_spec _ _ l ((milState_seen cfg s now info).trans hseen)

/-- C9: on every tick `last_seen_percent` is set to the tick's
percentage; whenever the previous seen percentage exceeds the current
one by at least 1 on a not-charging tick, the drop policy emits a double
beep below 30%, a single beep in `[30, 50)`, and nothing at 50% or
above or when the drop is smaller than one point; the drop beeps come
last in the tick's event list. -/
theorem C9_drop_beep :
    (∀ (cfg : Config) (s : MonitorState) (now : Int) (info : BatteryReading),
      (update_battery cfg s now info).1.last_seen_percent = some info.percentage) ∧
    (∀ (cfg : Config) (s : MonitorState) (now : Int) (info : BatteryReading) (l : Int),
      s.last_seen_percent = some l → isChargingOf info.state = false →
      1 ≤ l - info.percentage → info.percentage < 30 →
      dropPart cfg s now info = [Event.beep 2] ∧
      ∃ pre, (update_battery cfg s now info).2 = pre ++ [Event.beep 2]) ∧
    (∀ (cfg : Config) (s : MonitorState) (now : Int) (info : BatteryReading) (l : Int),
      s.last_seen_percent = some l → isChargingOf info.state = false →
      1 ≤ l - info.percentage → 30 ≤ info.percentage → info.percentage < 50 →
      dropPart cfg s now info = [Event.beep 1] ∧
      ∃ pre, (update_battery cfg s now info).2 = pre ++ [Event.beep 1]) ∧
    (∀ (cfg : Config) (s : MonitorState) (now : Int) (info : BatteryReading) (l : Int),
      s.last_seen_percent = some l → isChargingOf info.state = false →
      50 ≤ info.percentage → dropPart cfg s now info = []) ∧
    (∀ (cfg : Config) (s : MonitorState) (now : Int) (info : BatteryReading) (l : Int),
      s.last_seen_percent = some l → isChargingOf info.state = false →
      l - info.percentage < 1 → dropPart cfg s now info = []) := by
  refine ⟨fun cfg s now info => rfl, ?_, ?_, ?_, ?_⟩
  · intro cfg s now info l hseen hic hdrop hp
    have hd : dropPart cfg s now info = [Event.beep 2] := by
      rw [dropPart_spec cfg s now info l hseen hic, if_pos hdrop, if_pos hp]
    refine ⟨hd, wakeEvents cfg s now info ++ milPart cfg s now info, ?_⟩
    show wakeEvents cfg s now info ++ milPart cfg s now info ++ dropPart cfg s now info = _
    rw [hd, List.append_assoc]
  · intro cfg s now info l hseen hic hdrop hp30 hp50
    have hd : dropPart cfg s now info = [Event.beep 1] := by
      rw [dropPart_spec cfg s now info l hseen hic, if_pos hdrop,
        if_neg (by omega : ¬info.percentage < 30), if_pos ⟨hp30, hp50⟩]
    refine ⟨hd, wakeEvents cfg s now info ++ milPart cfg s now info, ?_⟩
    show wakeEvents cfg s now info ++ milPart cfg s now info ++ dropPart cfg s now info = _
    rw [hd, List.append_assoc]
  · intro cfg s now info l hseen hic hp
    rw [dropPart_spec cfg s now info l hseen hic]
    by_cases hdrop : 1 ≤ l - info.percentage
    · rw [if_pos hdrop, if_neg (by omega : ¬info.percentage < 30),
        if_neg (by omega : ¬(30 ≤ info.percentage ∧ info.percentage < 50))]
    · rw [if_neg hdrop]
  · intro cfg s now info l hseen hic hdrop
    rw [dropPart_spec cfg s now info l hseen hic, if_neg (by omega : ¬1 ≤ l - info.percentage)]


/-- C9 (witness): the spec's three drop examples — `31 → 29` double
beep, `55 → 44` single beep, `80 → 76` silent. -/
theorem C9_drop_beep_witness :
    dropRedState.last_seen_percent = some 31 ∧
    dropPart defaultConfig dropRedState 2 (BatteryReading.mk "Discharging" 29 none) =
      [Event.beep 2] ∧
    (∃ pre, (update_battery defaultConfig dropRedState 2
        (BatteryReading.mk "Discharging" 29 none)).2 = pre ++ [Event.beep 2]) ∧
    dropPart defaultConfig dropOrangeState 2 (BatteryReading.mk "Discharging" 44 none) =
      [Event.beep 1] ∧
    dropPart defaultConfig dropGreenState 2 (BatteryReading.mk "Discharging" 76 none) = [] :=
  ⟨rfl,
    (C9_drop_beep.2.1 defaultConfig dropRedState 2 (BatteryReading.mk "Discharging" 29 none)
      31 rfl (by decide) (by decide) (by decide)).1,
    (C9_drop_beep.2.1 defaultConfig dropRedState 2 (BatteryReading.mk "Discharging" 29 none)
      31 rfl (by decide) (by decide) (by decide)).2,
    (C9_drop_beep.2.2.1 defaultConfig dropOrangeState 2 (BatteryReading.mk "Discharging" 44 none)
      55 rfl (by decide) (by decide) (by decide) (by decide)).1,
    C9_drop_beep.2.2.2.1 defaultConfig dropGreenState 2 (BatteryReading.mk "Discharging" 76 none)
      80 rfl (by decide) (by decide)⟩
